import Mathlib

/-!
Verification of the daemon lifecycle supervisor of `clanker`
(`src/clanker/daemon.py`), as a shallow embedding in Lean 4.

Modelling conventions:
* Timestamps (`datetime.now().isoformat()`) are abstracted as natural
  numbers; `timedelta` addition becomes `Nat` addition of seconds.
* OS pids are natural numbers; the OS process table is a function
  `alive : Nat → Bool` (`psutil.Process(pid)` raises `NoSuchProcess`
  exactly when `alive pid = false`).
* A daemon state file on disk is `StateFile`: absent, corrupt
  (unreadable or not parseable as JSON), or a well-typed JSON object
  holding a `DaemonState` record.  A finer-grained model
  (`StateFileContent`, below) additionally distinguishes files whose
  content is valid JSON but not an object, and files whose read or
  parse raises an exception (`UnicodeDecodeError`, `RecursionError`)
  that `_load_state`'s handler does not catch.
* Python truthiness is preserved where the source relies on it:
  `if not pid:` treats the stored pid `0` like `null`, and
  `if not cmd_template:` treats the empty command string like a
  missing manifest entry.
-/

/-- `DaemonStatus` constants (daemon.py lines 24-30). -/
inductive DStatus where
  | stopped
  | running
  | crashed
  | starting
  | stopping
deriving DecidableEq, Repr

/-- The persisted per-daemon record: the fields of the JSON object
written by `_save_state` (daemon.py lines 73-83). -/
structure DaemonState where
  status : DStatus
  pid : Option Nat
  command : Option String
  started_at : Option Nat
  last_heartbeat : Option Nat
  exit_code : Option Int
  ended_at : Option Nat
  failure_count : Nat
  last_failure_at : Option Nat
deriving DecidableEq, Repr

/-- The default record returned by `_load_state` when the backing file
is absent or cannot be parsed (daemon.py lines 73-83). -/
def default_state : DaemonState :=
  { status := DStatus.stopped
    pid := none
    command := none
    started_at := none
    last_heartbeat := none
    exit_code := none
    ended_at := none
    failure_count := 0
    last_failure_at := none }

/-- The on-disk state file as seen by the state-machine operations:
absent, corrupt (unreadable or `json.loads` failed — both caught by
`_load_state`), or a well-typed record object. -/
inductive StateFile where
  | absent
  | corrupt
  | record (st : DaemonState)
deriving DecidableEq, Repr

/-- `ClankerDaemon._load_state` (daemon.py lines 66-83), restricted to
files whose successful parse is an object: absent and corrupt files
yield the default STOPPED record. -/
def load_state : StateFile → DaemonState
  | StateFile.record st => st
  | _ => default_state

/-- `ClankerDaemon._mark_status` (daemon.py lines 108-135): persist a
status, clearing the pid and stamping `ended_at` for terminal statuses,
bumping the failure counters on a crash, and optionally resetting them. -/
def mark_status (fc : StateFile) (status : DStatus) (exit_code : Option Int)
    (reset_failures : Bool) (now : Nat) : DaemonState :=
  let state := load_state fc
  let terminal : Bool := status == DStatus.stopped || status == DStatus.crashed
  let state1 : DaemonState :=
    { state with
        status := status
        last_heartbeat := some now
        pid := if terminal then none else state.pid
        ended_at := if terminal then some now else state.ended_at
        exit_code := exit_code }
  let state2 : DaemonState :=
    if status == DStatus.crashed then
      { state1 with failure_count := state1.failure_count + 1, last_failure_at := some now }
    else state1
  if reset_failures then { state2 with failure_count := 0, last_failure_at := none }
  else state2

/-- `ClankerDaemon._register_daemon` (daemon.py lines 93-106): record a
freshly spawned process as RUNNING and reset the failure counters. -/
def register_daemon (fc : StateFile) (pid : Nat) (command : String) (now : Nat) : DaemonState :=
  let state := load_state fc
  { state with
      pid := some pid
      status := DStatus.running
      command := some command
      started_at := some now
      last_heartbeat := some now
      failure_count := 0
      last_failure_at := none }

/-- `ClankerDaemon._update_status` (daemon.py lines 137-142): overwrite
only the status and heartbeat fields. -/
def update_status (fc : StateFile) (status : DStatus) (now : Nat) : DaemonState :=
  let state := load_state fc
  { state with status := status, last_heartbeat := some now }

/-- `ClankerDaemon._heartbeat` (daemon.py lines 144-148). -/
def heartbeat (fc : StateFile) (now : Nat) : DaemonState :=
  let state := load_state fc
  { state with last_heartbeat := some now }

/-- `ClankerDaemon.get_pid` (daemon.py lines 283-302).  Returns the pid
when the cached pid denotes a live process, and otherwise `none`; when a
cached (truthy) pid turns out dead, the crash is reconciled by writing a
CRASHED record.  The second component is the state file after the call.
Python's `if not pid:` makes a stored pid of `0` behave like `null`. -/
def get_pid (fc : StateFile) (alive : Nat → Bool) (now : Nat) : Option Nat × StateFile :=
  let state := load_state fc
  match state.pid with
  | none => (none, fc)
  | some p =>
    if p = 0 then (none, fc)
    else if alive p then (some p, fc)
    else (none, StateFile.record (mark_status fc DStatus.crashed none false now))

/-- `ClankerDaemon.is_running` (daemon.py lines 304-310). -/
def is_running (fc : StateFile) (alive : Nat → Bool) (now : Nat) : Bool :=
  (get_pid fc alive now).1.isSome

/-- `ClankerDaemon.stop` (daemon.py lines 211-281) combined with
`_cleanup_files` (lines 402-415).  When `get_pid` reports no live pid,
the stale state is cleaned (`_cleanup_files()` with its defaults:
status STOPPED, no exit code, failures kept) and `true` is returned.
Otherwise the STOPPING status is written and the process group is
terminated (escalating to SIGKILL); `exit_code` is the observed return
code of `process.wait`, and `kill_fails` models an exception escaping
the termination sequence, in which case `stop` returns `false` with the
STOPPING record left behind.  A completed termination is persisted as
STOPPED with `reset_failures=True`. -/
def stop (fc : StateFile) (alive : Nat → Bool) (now : Nat) (exit_code : Option Int)
    (kill_fails : Bool) : Bool × StateFile :=
  match get_pid fc alive now with
  | (none, fc2) => (true, StateFile.record (mark_status fc2 DStatus.stopped none false now))
  | (some _, fc2) =>
    let fc3 := StateFile.record (update_status fc2 DStatus.stopping now)
    if kill_fails then (false, fc3)
    else (true, StateFile.record (mark_status fc3 DStatus.stopped exit_code true now))

/-- Per-file crash reconciliation of `DaemonManager.cleanup_stale_entries`
(daemon.py lines 525-536): a record with a truthy cached pid whose
process is gone is rewritten in place.  Note that unlike `_mark_status`,
this path does not touch `last_failure_at` or `exit_code`. -/
def cleanup_stale_mark (st : DaemonState) (now : Nat) : DaemonState :=
  { st with
      status := DStatus.crashed
      pid := none
      ended_at := some now
      last_heartbeat := some now
      failure_count := st.failure_count + 1 }

/-- `FAILURE_BACKOFF_SCHEDULE` (daemon.py line 21), in seconds. -/
def FAILURE_BACKOFF_SCHEDULE : List Nat := [5, 30, 120, 600]

/-- `DaemonManager._next_restart_time` (daemon.py lines 566-575):
earliest time an autostart restart is allowed, or `none` when the
daemon is immediately eligible. -/
def next_restart_time (failure_count : Nat) (last_failure_at : Option Nat) : Option Nat :=
  if failure_count = 0 then none
  else
    match last_failure_at with
    | none => none
    | some last =>
      let index := min (failure_count - 1) (FAILURE_BACKOFF_SCHEDULE.length - 1)
      some (last + FAILURE_BACKOFF_SCHEDULE.getD index 0)

/-- The backoff delay (seconds) applied after `failure_count` failures. -/
def backoff_delay (failure_count : Nat) : Nat :=
  (next_restart_time failure_count (some 0)).getD 0

/-- Python truthiness of a manifest command template: `if not cmd_template:`
(daemon.py line 614) treats both a missing entry and an empty string as
"no command available". -/
def cmd_missing : Option String → Bool
  | none => true
  | some s => s == ""

/-- The restart-backoff gate of `start_enabled_daemons` (daemon.py line
624): `if next_time and datetime.now() < next_time`. -/
def backoff_blocked (st : DaemonState) (now : Nat) : Bool :=
  match next_restart_time st.failure_count st.last_failure_at with
  | some t => now < t
  | none => false

/-- The environment one autostart-enabled daemon is processed in by
`start_enabled_daemons` (daemon.py lines 605-636): its state file, the
OS process table, the manifest command lookup
`configs.get(app_name).get(daemon_id)`, and the outcome `daemon.start`
would report if invoked. -/
structure AutostartEnv where
  app : String
  daemon_id : String
  file : StateFile
  alive : Nat → Bool
  cmd : Option String
  start_ok : Bool

/-- The loop body of `DaemonManager.start_enabled_daemons` (daemon.py
lines 605-636) for one enabled daemon.  First component: the outcome
recorded in the results map; second: whether `daemon.start` was called.
The backoff gate reads the state file *after* `is_running`'s liveness
check, which may itself have reconciled a crash. -/
def autostart_step (e : AutostartEnv) (now : Nat) : Bool × Bool :=
  if is_running e.file e.alive now then (true, false)
  else if cmd_missing e.cmd then (false, false)
  else if backoff_blocked (load_state (get_pid e.file e.alive now).2) now then (false, false)
  else (e.start_ok, true)

/-- `DaemonManager.start_enabled_daemons` (daemon.py lines 577-638) over
the list of enabled autostart entries: a per-daemon outcome map keyed by
`"app:daemon_id"`. -/
def start_enabled_daemons (envs : List AutostartEnv) (now : Nat) : List (String × Bool) :=
  envs.map (fun e => (e.app ++ ":" ++ e.daemon_id, (autostart_step e now).1))

/-! ### Log tailing (`get_logs`) -/

/-- `64 * 1024`, the byte window of `ClankerDaemon.get_logs`
(daemon.py line 388). -/
def MAX_LOG_BYTES : Nat := 64 * 1024

/-- Python `str.splitlines` restricted to `\n` separators: no trailing
empty line for a trailing newline, `""` yields no lines. -/
def splitlines : List Char → List (List Char)
  | [] => []
  | c :: cs =>
    if c = '\n' then [] :: splitlines cs
    else
      match splitlines cs with
      | [] => [[c]]
      | l :: ls => (c :: l) :: ls

/-- Python `xs[-n:]`.  For `n = 0` this is the whole list (`xs[-0:]`
is `xs[0:]`), otherwise the last `n` elements. -/
def py_tail {α : Type} (n : Nat) (xs : List α) : List α :=
  if n = 0 then xs else xs.drop (xs.length - n)

/-- `ClankerDaemon.get_logs` (daemon.py lines 374-400): seek to the end,
read the final `min(64KB, file_size)` bytes, decode, split into lines
and keep the last `n`.  The file content is modelled as a byte/char
list (the lenient decode is the identity on this model). -/
def get_logs (content : List Char) (n : Nat) : List (List Char) :=
  let file_size := content.length
  let read_size := min MAX_LOG_BYTES file_size
  let chunk := content.drop (file_size - read_size)
  py_tail n (splitlines chunk)

/-! ### State-file write atomicity (`_save_state`) -/

/-- Observable on-disk contents of the state file while
`ClankerDaemon._save_state` runs (daemon.py line 89).
`Path.write_text` opens the file with mode `w` — truncating it in
place — and then writes the serialized record, so a reader interleaved
with the write can observe the old content, the empty truncated file,
or any prefix of the new content. -/
def save_state_observable (old new : List Char) : List (List Char) :=
  old :: (List.range (new.length + 1)).map (fun k => new.take k)

/-- Observable contents under a write-temp-then-rename scheme: the
record path flips atomically from the old to the new content. -/
def atomic_write_observable (old new : List Char) : List (List Char) :=
  [old, new]

/-! ### Full-fidelity load (`_load_state` on arbitrary bytes) -/

/-- A JSON value that is not an object (array contents are abstracted
away: only object-ness matters to `_load_state`). -/
inductive JsonNonObject where
  | jnull
  | jbool (b : Bool)
  | jnum (n : Int)
  | jstr (s : String)
  | jarr
deriving DecidableEq, Repr

/-- The state file at byte granularity, classified by how
`state_file.read_text()` followed by `json.loads(...)` behaves on its
content: absent; read raises `OSError`; read succeeds but the bytes are
not decodable in the filesystem encoding, so `read_text` raises
`UnicodeDecodeError`; decoded text is not parseable as JSON
(`json.JSONDecodeError`); decoded text is JSON nested deeply enough
that `json.loads` raises `RecursionError`; parseable to a non-object
value; or parseable to an object (typed as a record). -/
inductive StateFileContent where
  | absent
  | unreadable
  | undecodable
  | malformed
  | deepNested
  | nonObject (v : JsonNonObject)
  | object (st : DaemonState)
deriving DecidableEq, Repr

/-- What `_load_state` hands back to its caller when it returns: a
usable record, or a raw non-object value returned as-is (on which
every downstream field access `state.get(...)` raises
`AttributeError`). -/
inductive LoadResult where
  | state (st : DaemonState)
  | raw (v : JsonNonObject)
deriving DecidableEq, Repr

/-- Exceptions that escape `_load_state` uncaught: its `except` clause
(daemon.py line 71) covers only `json.JSONDecodeError` and `OSError`. -/
inductive PyError where
  | unicodeDecodeError
  | recursionError
deriving DecidableEq, Repr

/-- How a call to `_load_state` terminates: a normal return, or an
exception propagating to the caller. -/
inductive LoadOutcome where
  | returns (r : LoadResult)
  | raises (e : PyError)
deriving DecidableEq, Repr

/-- `ClankerDaemon._load_state` (daemon.py lines 66-83) at byte
granularity.  `json.JSONDecodeError` and `OSError` are caught and yield
the default record; a *successful* parse is returned unchanged, object
or not; and a `UnicodeDecodeError` from `read_text` or a
`RecursionError` from `json.loads` matches neither handler and
propagates out of `_load_state`. -/
def load_state_json : StateFileContent → LoadOutcome
  | StateFileContent.object st => LoadOutcome.returns (LoadResult.state st)
  | StateFileContent.nonObject v => LoadOutcome.returns (LoadResult.raw v)
  | StateFileContent.undecodable => LoadOutcome.raises PyError.unicodeDecodeError
  | StateFileContent.deepNested => LoadOutcome.raises PyError.recursionError
  | _ => LoadOutcome.returns (LoadResult.state default_state)

/-! ### State/autostart filename encoding -/

/-- Python `s.split(sep, 1)` when `sep` occurs in `s`: the part before
the first separator and everything after it (`none` when absent). -/
def split_first (sep : Char) : List Char → Option (List Char × List Char)
  | [] => none
  | c :: cs =>
    if c = sep then some ([], cs)
    else
      match split_first sep cs with
      | some (l, r) => some (c :: l, r)
      | none => none

/-- The stem of a daemon state file, `f"{app_name}_{daemon_id}"`
(daemon.py line 61). -/
def encode_state_stem (app daemon_id : List Char) : List Char :=
  app ++ '_' :: daemon_id

/-- Parsing a state-file stem in `DaemonManager.list_daemons` and
`cleanup_stale_entries` (daemon.py lines 450-455, 515-519):
`filename.split('_', 1)` when an underscore is present. -/
def parse_state_stem (stem : List Char) : Option (List Char × List Char) :=
  split_first '_' stem

/-- The stem of an autostart flag file,
`f"{app_name}_{daemon_id}_autostart"` (daemon.py line 551). -/
def encode_autostart_stem (app daemon_id : List Char) : List Char :=
  app ++ '_' :: (daemon_id ++ '_' :: String.toList "autostart")

/-- Parsing an autostart-file stem in `start_enabled_daemons`
(daemon.py lines 596-600): `filename.split('_', 2)`, keeping the first
two parts when at least two exist. -/
def parse_autostart_stem (stem : List Char) : Option (List Char × List Char) :=
  match split_first '_' stem with
  | none => none
  | some (a, rest) =>
    match split_first '_' rest with
    | none => some (a, rest)
    | some (b, _) => some (a, b)

/-- The record invariant claimed by the spec: a non-null pid only
together with status RUNNING, STARTING or STOPPING. -/
def pid_ok (st : DaemonState) : Bool :=
  st.pid.isNone ||
    (st.status == DStatus.running || st.status == DStatus.starting ||
      st.status == DStatus.stopping)

/-! ## Helper lemmas -/

theorem mark_stopped_pid (fc : StateFile) (ec : Option Int) (rf : Bool) (now : Nat) :
    (mark_status fc DStatus.stopped ec rf now).pid = none := by
  cases rf <;> simp [mark_status]

theorem mark_stopped_status (fc : StateFile) (ec : Option Int) (rf : Bool) (now : Nat) :
    (mark_status fc DStatus.stopped ec rf now).status = DStatus.stopped := by
  cases rf <;> simp [mark_status]

theorem get_pid_of_no_pid (fc : StateFile) (alive : Nat → Bool) (now : Nat)
    (h : (load_state fc).pid = none) : get_pid fc alive now = (none, fc) := by
  simp [get_pid, h]

/-! ## C2: backoff schedule -/

/-- C2: for every `failure_count` F ≥ 1 and last-failure timestamp T the
next eligible restart time is `T + schedule[min(F-1, len(schedule)-1)]`
over the fixed schedule (5, 30, 120, 600); F = 0 means immediate
eligibility (no wait); concretely F = 1,2,3 give delays 5, 30, 120 and
every F ≥ 4 gives the final entry 600; over F = 1..5 the delay is
non-decreasing. -/
theorem c2_backoff_schedule :
    (∀ F T : Nat, 1 ≤ F → next_restart_time F (some T)
      = some (T + FAILURE_BACKOFF_SCHEDULE.getD
          (min (F - 1) (FAILURE_BACKOFF_SCHEDULE.length - 1)) 0)) ∧
    (∀ T : Nat, next_restart_time 0 (some T) = none) ∧
    (∀ T : Nat, next_restart_time 1 (some T) = some (T + 5)) ∧
    (∀ T : Nat, next_restart_time 2 (some T) = some (T + 30)) ∧
    (∀ T : Nat, next_restart_time 3 (some T) = some (T + 120)) ∧
    (∀ F T : Nat, 4 ≤ F → next_restart_time F (some T) = some (T + 600)) ∧
    (∀ F : Nat, F < 5 → 1 ≤ F → backoff_delay F ≤ backoff_delay (F + 1)) := by
  refine ⟨?_, ?_, ?_, ?_, ?_, ?_, ?_⟩
  · intro F T hF
    have h0 : F ≠ 0 := by omega
    simp [next_restart_time, h0]
  · intro T; simp [next_restart_time]
  · intro T; simp [next_restart_time]; rfl
  · intro T; simp [next_restart_time]; rfl
  · intro T; simp [next_restart_time]; rfl
  · intro F T hF
    have h0 : F ≠ 0 := by omega
    have hmin : min (F - 1) (FAILURE_BACKOFF_SCHEDULE.length - 1) = 3 := by
      simp [FAILURE_BACKOFF_SCHEDULE]
      omega
    simp [next_restart_time, h0, hmin]
    rfl
  · decide

/-- Witness for C2 at F = 7, T = 100: capped delay of 600 seconds. -/
theorem c2_backoff_schedule_witness : next_restart_time 7 (some 100) = some 700 :=
  c2_backoff_schedule.2.2.2.2.2.1 7 100 (by norm_num)

/-! ## C5: load on absent / corrupt / arbitrary content -/

/-- C5 counterexample: a state file whose bytes are not decodable in
the filesystem encoding makes `read_text` raise `UnicodeDecodeError`,
which `_load_state`'s handler (only `json.JSONDecodeError` and
`OSError`) does not catch — so the load raises instead of returning the
default record; and a file containing the valid JSON value `42` (not an
object) is returned as-is, also not the default STOPPED record. -/
theorem c5_load_counterexample :
    load_state_json StateFileContent.undecodable
      = LoadOutcome.raises PyError.unicodeDecodeError ∧
    LoadOutcome.raises PyError.unicodeDecodeError
      ≠ LoadOutcome.returns (LoadResult.state default_state) ∧
    load_state_json (StateFileContent.nonObject (JsonNonObject.jnum 42))
      = LoadOutcome.returns (LoadResult.raw (JsonNonObject.jnum 42)) ∧
    LoadOutcome.returns (LoadResult.raw (JsonNonObject.jnum 42))
      ≠ LoadOutcome.returns (LoadResult.state default_state) := by
  refine ⟨rfl, by decide, rfl, by decide⟩

/-- C5 (amended): when the file is absent, the read raises `OSError`,
or the decoded content is not parseable as JSON, `_load_state` catches
the failure and returns the default record (status STOPPED, pid null,
failure_count 0); but content that is valid JSON yet not an object is
returned as-is, and content whose read or parse raises outside the two
caught classes — `UnicodeDecodeError` from `read_text` on undecodable
bytes, `RecursionError` from `json.loads` on deeply nested JSON —
propagates out of `_load_state` uncaught. -/
theorem c5_load_default :
    load_state_json StateFileContent.absent
      = LoadOutcome.returns (LoadResult.state default_state) ∧
    load_state_json StateFileContent.unreadable
      = LoadOutcome.returns (LoadResult.state default_state) ∧
    load_state_json StateFileContent.malformed
      = LoadOutcome.returns (LoadResult.state default_state) ∧
    default_state.status = DStatus.stopped ∧
    default_state.pid = none ∧
    default_state.failure_count = 0 ∧
    (∀ v : JsonNonObject,
      load_state_json (StateFileContent.nonObject v)
        = LoadOutcome.returns (LoadResult.raw v)) ∧
    load_state_json StateFileContent.undecodable
      = LoadOutcome.raises PyError.unicodeDecodeError ∧
    load_state_json StateFileContent.deepNested
      = LoadOutcome.raises PyError.recursionError := by
  refine ⟨rfl, rfl, rfl, rfl, rfl, rfl, fun v => rfl, rfl, rfl⟩

/-! ## C9: filename encoding round trip -/

theorem split_first_append (sep : Char) (pre rest : List Char) (h : sep ∉ pre) :
    split_first sep (pre ++ sep :: rest) = some (pre, rest) := by
  induction pre with
  | nil => simp [split_first]
  | cons c cs ih =>
    have hc : ¬ c = sep := fun e => h (e ▸ List.mem_cons_self c cs)
    have hcs : sep ∉ cs := fun m => h (List.mem_cons_of_mem c m)
    simp [split_first, hc, ih hcs]

/-- C9: state-file stems `app_daemonid` parse back by splitting on the
first underscore, recovering the pair whenever the app name has no
underscore (the daemon id may have any); autostart stems
`app_daemonid_autostart` recover the pair whenever both are
underscore-free; and underscores in the app name (or, for autostart,
the daemon id) make parsing return a different pair. -/
theorem c9_filename_roundtrip :
    (∀ app daemon_id : List Char, '_' ∉ app →
      parse_state_stem (encode_state_stem app daemon_id) = some (app, daemon_id)) ∧
    (∀ app daemon_id : List Char, '_' ∉ app → '_' ∉ daemon_id →
      parse_autostart_stem (encode_autostart_stem app daemon_id) = some (app, daemon_id)) ∧
    (∃ app daemon_id : List Char,
      parse_state_stem (encode_state_stem app daemon_id) ≠ some (app, daemon_id)) ∧
    (∃ app daemon_id : List Char,
      parse_autostart_stem (encode_autostart_stem app daemon_id) ≠ some (app, daemon_id)) := by
  refine ⟨?_, ?_, ?_, ?_⟩
  · intro app daemon_id h
    simpa [parse_state_stem, encode_state_stem] using
      split_first_append '_' app daemon_id h
  · intro app daemon_id ha hd
    have h1 := split_first_append '_' app (daemon_id ++ '_' :: String.toList "autostart") ha
    have h2 := split_first_append '_' daemon_id (String.toList "autostart") hd
    simp only [parse_autostart_stem, encode_autostart_stem, h1, h2]
  · exact ⟨['a', '_', 'b'], ['c'], by decide⟩
  · exact ⟨['a'], ['b', '_', 'c'], by decide⟩

/-- Witness for C9 on the underscore-free pair (demo, alpha). -/
theorem c9_filename_roundtrip_witness :
    parse_state_stem (encode_state_stem (String.toList "demo") (String.toList "alpha"))
      = some (String.toList "demo", String.toList "alpha") :=
  c9_filename_roundtrip.1 (String.toList "demo") (String.toList "alpha") (by decide)

/-! ## C1: crash reconciliation in `get_pid` -/

/-- C1 counterexample: a record whose stored pid is the non-null value
`0` (Python `if not pid:` treats it as falsy) with no such OS process —
`get_pid` returns `None` but the persisted record is left untouched:
status stays RUNNING and `failure_count` is not incremented. -/
theorem c1_pid_zero_counterexample :
    (load_state (StateFile.record
        { default_state with status := DStatus.running, pid := some 0 })).pid ≠ none ∧
    get_pid (StateFile.record { default_state with status := DStatus.running, pid := some 0 })
        (fun _ => false) 5
      = (none, StateFile.record { default_state with status := DStatus.running, pid := some 0 }) ∧
    (load_state (get_pid
        (StateFile.record { default_state with status := DStatus.running, pid := some 0 })
        (fun _ => false) 5).2).status ≠ DStatus.crashed ∧
    (load_state (get_pid
        (StateFile.record { default_state with status := DStatus.running, pid := some 0 })
        (fun _ => false) 5).2).failure_count
      = (load_state (StateFile.record
          { default_state with status := DStatus.running, pid := some 0 })).failure_count := by
  refine ⟨by decide, by decide, by decide, by decide⟩

/-- C1 (amended): for every record whose stored pid is non-null *and
nonzero*, if the OS reports no such process then `get_pid` returns
`None`, `is_running` returns false, and the persisted record afterwards
is CRASHED with pid cleared, `failure_count` incremented by exactly 1,
and `last_failure_at` and `ended_at` set to the observation time. -/
theorem c1_crash_reconciliation (fc : StateFile) (alive : Nat → Bool) (now p : Nat)
    (hp : (load_state fc).pid = some p) (hpz : p ≠ 0) (hdead : alive p = false) :
    (get_pid fc alive now).1 = none ∧
    is_running fc alive now = false ∧
    ∃ st : DaemonState, (get_pid fc alive now).2 = StateFile.record st ∧
      st.status = DStatus.crashed ∧ st.pid = none ∧
      st.failure_count = (load_state fc).failure_count + 1 ∧
      st.last_failure_at = some now ∧ st.ended_at = some now ∧ st.exit_code = none := by
  have hg : get_pid fc alive now
      = (none, StateFile.record (mark_status fc DStatus.crashed none false now)) := by
    simp [get_pid, hp, hpz, hdead]
  refine ⟨by rw [hg], by simp [is_running, hg],
    mark_status fc DStatus.crashed none false now, by rw [hg], ?_, ?_, ?_, ?_, ?_, ?_⟩
  all_goals simp [mark_status]

/-- Witness for C1 (amended) on a RUNNING record with dead pid 7. -/
theorem c1_crash_reconciliation_witness :
    (get_pid (StateFile.record { default_state with status := DStatus.running, pid := some 7 })
      (fun _ => false) 3).1 = none :=
  (c1_crash_reconciliation
    (StateFile.record { default_state with status := DStatus.running, pid := some 7 })
    (fun _ => false) 3 7 rfl (by decide) rfl).1

/-! ## C6: pid/status invariant across writers -/

/-- C6: every record written by start registration, status marking, the
stop path, or stale-entry cleanup satisfies the invariant (pid non-null
only with status RUNNING, STARTING or STOPPING); terminal statuses
STOPPED and CRASHED are always written with pid null; and the lazily
created default record satisfies the invariant too. -/
theorem c6_pid_status_invariant (fc : StateFile) (status : DStatus) (ec : Option Int)
    (rf : Bool) (now p : Nat) (cmd : String) (st : DaemonState) (alive : Nat → Bool)
    (ec2 : Option Int) (kf : Bool) :
    pid_ok (mark_status fc status ec rf now) = true ∧
    ((status = DStatus.stopped ∨ status = DStatus.crashed) →
      (mark_status fc status ec rf now).pid = none) ∧
    pid_ok (register_daemon fc p cmd now) = true ∧
    pid_ok (load_state (stop fc alive now ec2 kf).2) = true ∧
    pid_ok (cleanup_stale_mark st now) = true ∧
    (cleanup_stale_mark st now).pid = none ∧
    pid_ok default_state = true := by
  have hmark : ∀ (fcx : StateFile) (s : DStatus) (e : Option Int) (r : Bool) (n : Nat),
      pid_ok (mark_status fcx s e r n) = true := by
    intro fcx s e r n
    cases s <;> cases r <;> simp [mark_status, pid_ok]
  refine ⟨hmark fc status ec rf now, ?_, ?_, ?_, ?_, ?_, by decide⟩
  · rintro (h | h) <;> subst h <;> cases rf <;> simp [mark_status]
  · simp [register_daemon, pid_ok]
  · rcases hg : get_pid fc alive now with ⟨pidOpt, fc2⟩
    cases pidOpt with
    | none => simpa [stop, hg, load_state] using hmark fc2 DStatus.stopped none false now
    | some q =>
      cases kf with
      | true => simp [stop, hg, load_state, update_status, pid_ok]
      | false =>
        simpa [stop, hg, load_state] using
          hmark (StateFile.record (update_status fc2 DStatus.stopping now))
            DStatus.stopped ec2 true now
  · simp [cleanup_stale_mark, pid_ok]
  · simp [cleanup_stale_mark]

/-- Witness for C6: marking CRASHED on a concrete RUNNING record clears
the pid. -/
theorem c6_pid_status_invariant_witness :
    (mark_status (StateFile.record { default_state with status := DStatus.running, pid := some 9 })
      DStatus.crashed none false 4).pid = none :=
  (c6_pid_status_invariant
    (StateFile.record { default_state with status := DStatus.running, pid := some 9 })
    DStatus.crashed none false 4 0 "" default_state (fun _ => false) none false).2.1
    (Or.inr rfl)

/-! ## C7: stop idempotence -/

/-- C7: when the daemon is not running (no live pid), `stop` returns
true; and whenever a `stop` call returned true, an immediately repeated
`stop` also returns true and leaves the persisted status STOPPED. -/
theorem c7_stop_idempotent (fc : StateFile) (alive : Nat → Bool) (n1 n2 : Nat)
    (ec1 ec2 : Option Int) (kf1 kf2 : Bool) :
    ((get_pid fc alive n1).1 = none → (stop fc alive n1 ec1 kf1).1 = true) ∧
    (∀ fc2 : StateFile, stop fc alive n1 ec1 kf1 = (true, fc2) →
      (stop fc2 alive n2 ec2 kf2).1 = true ∧
      (load_state (stop fc2 alive n2 ec2 kf2).2).status = DStatus.stopped) := by
  have hstopped : ∀ (fcx : StateFile) (e : Option Int) (r : Bool) (n : Nat),
      (stop (StateFile.record (mark_status fcx DStatus.stopped e r n)) alive n2 ec2 kf2).1 = true ∧
      (load_state (stop (StateFile.record (mark_status fcx DStatus.stopped e r n))
        alive n2 ec2 kf2).2).status = DStatus.stopped := by
    intro fcx e r n
    have hpid : (load_state (StateFile.record (mark_status fcx DStatus.stopped e r n))).pid
        = none := mark_stopped_pid fcx e r n
    have hgp := get_pid_of_no_pid _ alive n2 hpid
    constructor
    · simp [stop, hgp]
    · simp [stop, hgp, load_state, mark_stopped_status]
  rcases hg : get_pid fc alive n1 with ⟨pidOpt, fcx⟩
  constructor
  · intro h
    have : pidOpt = none := by simpa [hg] using h
    subst this
    simp [stop, hg]
  · intro fc2 h
    cases pidOpt with
    | none =>
      have hfc2 : fc2 = StateFile.record (mark_status fcx DStatus.stopped none false n1) := by
        simpa [stop, hg] using h.symm
      subst hfc2
      exact hstopped fcx none false n1
    | some q =>
      cases kf1 with
      | true => simp [stop, hg] at h
      | false =>
        have hfc2 : fc2 = StateFile.record
            (mark_status (StateFile.record (update_status fcx DStatus.stopping n1))
              DStatus.stopped ec1 true n1) := by
          simpa [stop, hg] using h.symm
        subst hfc2
        exact hstopped _ ec1 true n1

/-- Witness for C7 on a STOPPED default record. -/
theorem c7_stop_idempotent_witness :
    (stop (StateFile.record default_state) (fun _ => false) 1 none false).1 = true :=
  (c7_stop_idempotent (StateFile.record default_state) (fun _ => false) 1 2
    none none false false).1 rfl

/-! ## C10: frame property of stop on a non-running daemon -/

/-- C10 counterexample: a record with a cached pid whose process is dead
has "no live pid" (`is_running` is false), yet `stop` does not leave
`failure_count` unchanged — the liveness check inside `stop` reconciles
the crash and increments it from 0 to 1 (and sets `last_failure_at`). -/
theorem c10_stop_frame_counterexample :
    is_running (StateFile.record { default_state with status := DStatus.running, pid := some 7 })
      (fun _ => false) 100 = false ∧
    (stop (StateFile.record { default_state with status := DStatus.running, pid := some 7 })
      (fun _ => false) 100 none false).1 = true ∧
    (load_state (stop
        (StateFile.record { default_state with status := DStatus.running, pid := some 7 })
        (fun _ => false) 100 none false).2).failure_count = 1 ∧
    (load_state (StateFile.record
        { default_state with status := DStatus.running, pid := some 7 })).failure_count = 0 := by
  refine ⟨rfl, rfl, rfl, rfl⟩

/-- C10 (amended): for every record whose *stored pid field is null*
(e.g. status CRASHED or STOPPED), `stop` returns true, rewrites status
to STOPPED, sets `ended_at`, clears pid and exit_code, and leaves
`failure_count` and `last_failure_at` (and hence the computed backoff
gate) unchanged; the failure counters are reset to zero only by the
stop path that terminated a live process and by start registration. -/
theorem c10_stop_frame (fc : StateFile) (alive : Nat → Bool) (now p : Nat)
    (ec ec2 : Option Int) (kf : Bool) (cmd : String) :
    ((load_state fc).pid = none →
      (stop fc alive now ec kf).1 = true ∧
      ∃ st : DaemonState, (stop fc alive now ec kf).2 = StateFile.record st ∧
        st.status = DStatus.stopped ∧ st.ended_at = some now ∧
        st.pid = none ∧ st.exit_code = none ∧
        st.failure_count = (load_state fc).failure_count ∧
        st.last_failure_at = (load_state fc).last_failure_at ∧
        next_restart_time st.failure_count st.last_failure_at
          = next_restart_time (load_state fc).failure_count (load_state fc).last_failure_at) ∧
    (∀ q : Nat, (load_state fc).pid = some q → q ≠ 0 → alive q = true →
      ∃ st : DaemonState, stop fc alive now ec2 false = (true, StateFile.record st) ∧
        st.failure_count = 0 ∧ st.last_failure_at = none) ∧
    (register_daemon fc p cmd now).failure_count = 0 ∧
    (register_daemon fc p cmd now).last_failure_at = none := by
  refine ⟨?_, ?_, by simp [register_daemon], by simp [register_daemon]⟩
  · intro hpid
    have hgp := get_pid_of_no_pid fc alive now hpid
    refine ⟨by simp [stop, hgp], mark_status fc DStatus.stopped none false now,
      by simp [stop, hgp], mark_stopped_status fc none false now,
      ?_, mark_stopped_pid fc none false now, ?_, ?_, ?_, ?_⟩
    · simp [mark_status]
    · simp [mark_status]
    · simp [mark_status]
    · simp [mark_status]
    · simp [mark_status]
  · intro q hq hqz halive
    have hgq : get_pid fc alive now = (some q, fc) := by
      simp [get_pid, hq, hqz, halive]
    refine ⟨mark_status (StateFile.record (update_status fc DStatus.stopping now))
        DStatus.stopped ec2 true now, by simp [stop, hgq], ?_, ?_⟩
    · simp [mark_status]
    · simp [mark_status]

/-- Witness for C10 (amended) on a CRASHED record with two failures. -/
theorem c10_stop_frame_witness :
    (stop
      (StateFile.record
        { default_state with
            status := DStatus.crashed, failure_count := 2, last_failure_at := some 50 })
      (fun _ => false) 60 none false).1 = true :=
  ((c10_stop_frame
    (StateFile.record
      { default_state with
          status := DStatus.crashed, failure_count := 2, last_failure_at := some 50 })
    (fun _ => false) 60 0 none none false "").1 rfl).1

/-! ## C3: autostart gating in `start_enabled_daemons` -/

/-- C3: each enabled daemon's outcome is recorded in the returned map;
a daemon already running is recorded as success without calling start;
one with no (truthy) manifest command is recorded as failure without
calling start; one whose failure_count is ≥ 1 with the current time
before the computed next eligible restart time is recorded as failure
without calling start; otherwise `start()` is called and its outcome
recorded (a zero failure_count never blocks). -/
theorem c3_autostart_gating (e : AutostartEnv) (envs : List AutostartEnv) (now : Nat) :
    start_enabled_daemons (e :: envs) now
      = (e.app ++ ":" ++ e.daemon_id, (autostart_step e now).1)
          :: start_enabled_daemons envs now ∧
    (is_running e.file e.alive now = true → autostart_step e now = (true, false)) ∧
    (is_running e.file e.alive now = false → cmd_missing e.cmd = true →
      autostart_step e now = (false, false)) ∧
    (is_running e.file e.alive now = false → cmd_missing e.cmd = false →
      ∀ t : Nat,
        next_restart_time (load_state (get_pid e.file e.alive now).2).failure_count
            (load_state (get_pid e.file e.alive now).2).last_failure_at = some t →
        now < t →
        1 ≤ (load_state (get_pid e.file e.alive now).2).failure_count ∧
        autostart_step e now = (false, false)) ∧
    (is_running e.file e.alive now = false → cmd_missing e.cmd = false →
      backoff_blocked (load_state (get_pid e.file e.alive now).2) now = false →
      autostart_step e now = (e.start_ok, true)) ∧
    ((load_state (get_pid e.file e.alive now).2).failure_count = 0 →
      backoff_blocked (load_state (get_pid e.file e.alive now).2) now = false) := by
  refine ⟨rfl, ?_, ?_, ?_, ?_, ?_⟩
  · intro h; simp [autostart_step, h]
  · intro h hc; simp [autostart_step, h, hc]
  · intro h hc t ht hlt
    have hfc : (load_state (get_pid e.file e.alive now).2).failure_count ≠ 0 := by
      intro h0
      simp [next_restart_time, h0] at ht
    have hb : backoff_blocked (load_state (get_pid e.file e.alive now).2) now = true := by
      simp [backoff_blocked, ht, hlt]
    refine ⟨by omega, ?_⟩
    simp [autostart_step, h, hc, hb]
  · intro h hc hb
    simp [autostart_step, h, hc, hb]
  · intro h0
    simp [backoff_blocked, next_restart_time, h0]

/-- Witness for C3 on an already-running daemon: success, no start. -/
theorem c3_autostart_gating_witness :
    autostart_step
      { app := "demo", daemon_id := "alpha",
        file := StateFile.record { default_state with status := DStatus.running, pid := some 7 },
        alive := fun _ => true, cmd := some "run", start_ok := true } 0 = (true, false) :=
  (c3_autostart_gating
    { app := "demo", daemon_id := "alpha",
      file := StateFile.record { default_state with status := DStatus.running, pid := some 7 },
      alive := fun _ => true, cmd := some "run", start_ok := true } [] 0).2.1 rfl

/-! ## C4: state-file write atomicity -/

/-- C4 counterexample: during `_save_state`'s `write_text`, the empty
truncated file is observable, and it is neither the old nor the new
record content. -/
theorem c4_atomic_write_counterexample :
    ([] : List Char) ∈ save_state_observable ['o'] ['n', 'e', 'w'] ∧
    ([] : List Char) ≠ ['o'] ∧ ([] : List Char) ≠ ['n', 'e', 'w'] := by
  refine ⟨by decide, by decide, by decide⟩

/-- C4 (amended): `_save_state` writes with `Path.write_text`, which
truncates in place and then writes — not write-temp-then-rename — so
for every record with non-empty old and new serializations there is an
interleaving in which a concurrent reader observes a torn record
(neither old nor new); an atomic rename-based write would only ever
expose the old or the new content. -/
theorem c4_torn_write (old new : List Char) (h1 : old ≠ []) (h2 : new ≠ []) :
    (∃ s ∈ save_state_observable old new, s ≠ old ∧ s ≠ new) ∧
    (∀ s ∈ atomic_write_observable old new, s = old ∨ s = new) := by
  constructor
  · refine ⟨[], ?_, fun e => h1 e.symm, fun e => h2 e.symm⟩
    simp only [save_state_observable, List.mem_cons, List.mem_map]
    exact Or.inr ⟨0, by simp [List.mem_range], by simp⟩
  · intro s hs
    simpa [atomic_write_observable] using hs

/-- Witness for C4 (amended) on one-byte old and new contents. -/
theorem c4_torn_write_witness :
    ∃ s ∈ save_state_observable ['a'] ['b'], s ≠ ['a'] ∧ s ≠ ['b'] :=
  (c4_torn_write ['a'] ['b'] (by decide) (by decide)).1

/-! ## C8: log tailing -/

theorem splitlines_cons_of_ne (c : Char) (cs : List Char) (h : ¬ c = '\n') :
    splitlines (c :: cs)
      = match splitlines cs with
        | [] => [[c]]
        | l :: ls => (c :: l) :: ls := by
  rw [splitlines, if_neg h]

theorem splitlines_newline_cons (cs : List Char) :
    splitlines ('\n' :: cs) = [] :: splitlines cs := by
  rw [splitlines, if_pos rfl]

theorem splitlines_replicate_a (k : Nat) :
    splitlines (List.replicate (k + 1) 'a') = [List.replicate (k + 1) 'a'] := by
  induction k with
  | zero => decide
  | succ n ih =>
    rw [List.replicate_succ, splitlines_cons_of_ne _ _ (by decide), ih,
      List.replicate_succ]

theorem drop_replicate_list {α : Type} (x : α) :
    ∀ n m : Nat, List.drop n (List.replicate m x) = List.replicate (m - n) x := by
  intro n
  induction n with
  | zero => intro m; simp
  | succ k ih =>
    intro m
    cases m with
    | zero => simp
    | succ m2 =>
      rw [List.replicate_succ, List.drop_succ_cons, ih m2, Nat.succ_sub_succ]

/-- C8 counterexample: a log file of 65602 bytes whose final line is
65600 bytes long has more than 1 line, but `get_logs 1` does not return
the last line of the file — the 64KB window cuts it to its final 65536
bytes. -/
theorem c8_get_logs_counterexample :
    1 < (splitlines (['b', '\n'] ++ List.replicate 65600 'a')).length ∧
    get_logs (['b', '\n'] ++ List.replicate 65600 'a') 1
      ≠ py_tail 1 (splitlines (['b', '\n'] ++ List.replicate 65600 'a')) := by
  have hsp : splitlines (['b', '\n'] ++ List.replicate 65600 'a')
      = [['b'], List.replicate 65600 'a'] := by
    have h1 : splitlines (List.replicate 65600 'a') = [List.replicate 65600 'a'] := by
      have := splitlines_replicate_a 65599
      norm_num at this
      exact this
    rw [List.cons_append, List.cons_append, List.nil_append,
      splitlines_cons_of_ne _ _ (by decide), splitlines_newline_cons, h1]
  have hget : get_logs (['b', '\n'] ++ List.replicate 65600 'a') 1
      = [List.replicate 65536 'a'] := by
    have hlen : (['b', '\n'] ++ List.replicate 65600 'a').length = 65602 := by
      rw [List.length_append, List.length_replicate]
      rfl
    simp only [get_logs, hlen]
    norm_num [MAX_LOG_BYTES]
    have h1 : splitlines (List.replicate 65536 'a') = [List.replicate 65536 'a'] := by
      have := splitlines_replicate_a 65535
      norm_num at this
      exact this
    rw [h1]
    simp only [py_tail]
    rw [if_neg (by decide)]
    rfl
  constructor
  · rw [hsp]; decide
  · rw [hsp, hget]
    have htail : py_tail 1 [['b'], List.replicate 65600 'a']
        = [List.replicate 65600 'a'] := by
      simp only [py_tail]
      rw [if_neg (by decide)]
      rfl
    rw [htail]
    intro h
    have h2 := List.head_eq_of_cons_eq h
    have h3 : (List.replicate 65536 'a').length = (List.replicate 65600 'a').length := by
      rw [h2]
    rw [List.length_replicate, List.length_replicate] at h3
    exact absurd h3 (by norm_num)

/-- C8 (amended): `get_logs` inspects only the final
`min(64KB, file_size)` bytes: prepending anything in front of a 64KB
suffix leaves the result unchanged.  Whenever the whole file fits in
the window, `get_logs n` (n ≥ 1) returns exactly the last n lines in
their original order — all lines when there are at most n — i.e. the
result is a suffix of the file's line list of length `min n #lines`.
For files larger than the window the result is the line tail of the
window only, which can truncate the earliest returned line. -/
theorem c8_get_logs_window :
    (∀ pre suf : List Char, ∀ n : Nat, suf.length = MAX_LOG_BYTES →
      get_logs (pre ++ suf) n = get_logs suf n) ∧
    (∀ content : List Char, ∀ n : Nat, 1 ≤ n → content.length ≤ MAX_LOG_BYTES →
      ((splitlines content).length ≤ n → get_logs content n = splitlines content) ∧
      (n < (splitlines content).length →
        get_logs content n
          = (splitlines content).drop ((splitlines content).length - n)) ∧
      (∃ ys : List (List Char), ys ++ get_logs content n = splitlines content) ∧
      (get_logs content n).length = min n (splitlines content).length) := by
  constructor
  · intro pre suf n hsuf
    simp only [get_logs, List.length_append, hsuf]
    have h1 : min MAX_LOG_BYTES (pre.length + MAX_LOG_BYTES) = MAX_LOG_BYTES :=
      Nat.min_eq_left (by omega)
    have h2 : min MAX_LOG_BYTES MAX_LOG_BYTES = MAX_LOG_BYTES := Nat.min_self _
    rw [h1, h2]
    have h3 : pre.length + MAX_LOG_BYTES - MAX_LOG_BYTES = pre.length := by omega
    have h4 : MAX_LOG_BYTES - MAX_LOG_BYTES = 0 := by omega
    rw [h3, h4, List.drop_zero]
    rw [show List.drop pre.length (pre ++ suf) = suf from List.drop_left pre suf]
  · intro content n hn hsize
    have hread : min MAX_LOG_BYTES content.length = content.length := Nat.min_eq_right hsize
    have hchunk : get_logs content n = py_tail n (splitlines content) := by
      simp only [get_logs, hread]
      rw [Nat.sub_self, List.drop_zero]
    have hn0 : ¬ n = 0 := by omega
    have htail : py_tail n (splitlines content)
        = (splitlines content).drop ((splitlines content).length - n) := by
      simp only [py_tail]
      rw [if_neg hn0]
    refine ⟨?_, ?_, ?_, ?_⟩
    · intro hle
      rw [hchunk, htail]
      have h0 : (splitlines content).length - n = 0 := by omega
      rw [h0, List.drop_zero]
    · intro hlt
      rw [hchunk, htail]
    · refine ⟨(splitlines content).take ((splitlines content).length - n), ?_⟩
      rw [hchunk, htail]
      exact List.take_append_drop _ _
    · rw [hchunk, htail, List.length_drop]
      omega

/-- Witness for C8 (amended): a 64KB suffix fully determines the tail. -/
theorem c8_get_logs_window_witness :
    get_logs (['x'] ++ List.replicate MAX_LOG_BYTES 'y') 3
      = get_logs (List.replicate MAX_LOG_BYTES 'y') 3 :=
  c8_get_logs_window.1 ['x'] (List.replicate MAX_LOG_BYTES 'y') 3
    (List.length_replicate _ _)
